import Mathlib

/-!
Verification development for the shinsen_bot table-to-record extraction
engine.  The definitions below are a shallow embedding of the JavaScript
source (src/server.js, src/db.js and the Excel migration script): pure JS
functions become Lean functions, the mutable `records` store becomes
explicit state passing, JS numbers become `ℚ` (exact rationals; the grids
involved only ever hold small decimal values), and JS `null`/`undefined`
results become `Option`.
-/

/- The Batteries rational-number operations are `@[irreducible]` by
default, which blocks `decide`-style evaluation of the embedded
arithmetic; restore ordinary reducibility within this file. -/
attribute [local semireducible] Rat.add Rat.mul Rat.inv Rat.sub Rat.ofScientific

/-! ## Small string utilities mirroring the JavaScript primitives -/

/-- Whitespace characters removed by `String.prototype.trim` (the common
ASCII subset; the source data never contains the more exotic Unicode
white-space code points). -/
def isJsSpace (c : Char) : Bool :=
  c == ' ' || c == '\t' || c == '\n' || c == '\r' || c == '\x0b' || c == '\x0c'

/-- JS `s.trim()`. -/
def jsTrim (s : String) : String :=
  String.mk (((s.toList.dropWhile isJsSpace).reverse.dropWhile isJsSpace).reverse)

/-- JS `s.toLowerCase()` (ASCII lowering; Thai characters are unaffected,
exactly as in JS). -/
def jsToLower (s : String) : String :=
  String.mk (s.toList.map Char.toLower)

/-- Does `pat` occur at the very start of `l`? -/
def charsHasPre : List Char → List Char → Bool
  | [], _ => true
  | _ :: _, [] => false
  | a :: as, b :: bs => a == b && charsHasPre as bs

/-- Does `pat` occur somewhere inside `l`? -/
def charsHasSub (pat : List Char) : List Char → Bool
  | [] => charsHasPre pat []
  | c :: t => charsHasPre pat (c :: t) || charsHasSub pat t

/-- JS `s.includes(pat)`. -/
def strIncludes (s pat : String) : Bool :=
  charsHasSub pat.toList s.toList

/-- JS `s.startsWith(pat)`. -/
def strStartsWith (s pat : String) : Bool :=
  charsHasPre pat.toList s.toList

/-- JS `s.replace(/,/g, '')`. -/
def stripCommas (s : String) : String :=
  String.mk (s.toList.filter (fun c => c ≠ ','))

/-- Numeric value of a digit string. -/
def digitsVal (cs : List Char) : Nat :=
  cs.foldl (fun a c => 10 * a + (c.toNat - 48)) 0

/-! ## `parseFloat` and `Math.round` -/

/-- Exponent part of a JS float literal (`e`/`E` already consumed); a
malformed exponent contributes nothing, as in `parseFloat`. -/
def readExp : List Char → Int
  | '-' :: u =>
    let ds := u.takeWhile Char.isDigit
    if ds.length = 0 then 0 else -(digitsVal ds : Int)
  | '+' :: u =>
    let ds := u.takeWhile Char.isDigit
    if ds.length = 0 then 0 else (digitsVal ds : Int)
  | u =>
    let ds := u.takeWhile Char.isDigit
    if ds.length = 0 then 0 else (digitsVal ds : Int)

/-- JS `parseFloat`: skip leading whitespace, optional sign, digits with an
optional fraction and exponent, parsed as the longest valid prefix; `none`
models `NaN` (no digits at all). -/
def parseFloatQ (s : String) : Option ℚ :=
  let cs := s.toList.dropWhile isJsSpace
  let sgn : ℚ := match cs with
    | '-' :: _ => -1
    | _ => 1
  let cs1 := match cs with
    | '-' :: t => t
    | '+' :: t => t
    | _ => cs
  let ip := cs1.takeWhile Char.isDigit
  let r1 := cs1.dropWhile Char.isDigit
  let fp := match r1 with
    | '.' :: t => t.takeWhile Char.isDigit
    | _ => []
  let r2 := match r1 with
    | '.' :: t => t.dropWhile Char.isDigit
    | _ => r1
  if ip.length = 0 ∧ fp.length = 0 then none
  else
    let mant : ℚ := (digitsVal ip : ℚ) + (digitsVal fp : ℚ) / ((10 : ℚ) ^ fp.length)
    let e : Int := match r2 with
      | 'e' :: t => readExp t
      | 'E' :: t => readExp t
      | _ => 0
    some (sgn * mant * (10 : ℚ) ^ e)

/-- JS `Math.round x = ⌊x + 1/2⌋` (half-up, toward +∞ on ties). -/
def jsRound (q : ℚ) : Int :=
  Int.floor (q + 1 / 2)

/-! ## Cell values of the spreadsheet grids (migration script)

`sheet_to_json(sheet, { header: 1, defval: '' })` produces rows whose cells
are JS numbers or strings; `null` stands for JS `null`/`undefined`. -/

inductive CellVal where
  | str (s : String)
  | num (q : ℚ)
  | null
deriving DecidableEq, Repr

/-- JS `String(v)` on a cell.  Integer numbers print as their decimal
digits, exactly as in JS; the rendering chosen for non-integral numbers
(`num/den`) differs from JS decimal notation, but no keyword/anchored-date
test in the source can match any all-digit-and-one-symbol string, so the
difference is unobservable in the embedded code paths. -/
def cellToString : CellVal → String
  | .str s => s
  | .num q => if q.den = 1 then toString q.num else toString q.num ++ "/" ++ toString q.den
  | .null => "null"

/-- JS truthiness of a cell value. -/
def cellTruthy : CellVal → Bool
  | .str s => s ≠ ""
  | .num q => q ≠ 0
  | .null => false

/-- `parseNumericValue` from the migration script:
`null`/`undefined`/`''` give 0, numbers are `Math.round`ed, strings have
commas stripped, are `parseFloat`ed and rounded, with `NaN` giving 0. -/
def parseNumericValue : CellVal → Int
  | .null => 0
  | .num q => jsRound q
  | .str s =>
    if s = "" then 0
    else match parseFloatQ (stripCommas s) with
      | none => 0
      | some q => jsRound q

/-! ## `parseExcelDate` (migration script) -/

/-- Gregorian date from a count of days since 1970-01-01 (the standard
era-based civil-from-days algorithm, all divisions on non-negative
quantities in our range). -/
def civilFromDays (z0 : Int) : Int × Nat × Nat :=
  let z := z0 + 719468
  let era : Int := (if 0 ≤ z then z else z - 146096) / 146097
  let doe : Int := z - era * 146097
  let yoe : Int := (doe - doe / 1460 + doe / 36524 - doe / 146096) / 365
  let y : Int := yoe + era * 400
  let doy : Int := doe - (365 * yoe + yoe / 4 - yoe / 100)
  let mp : Int := (5 * doy + 2) / 153
  let d : Int := doy - (153 * mp + 2) / 5 + 1
  let m : Int := mp + (if mp < 10 then 3 else -9)
  (y + (if m ≤ 2 then 1 else 0), m.toNat, d.toNat)

/-- `XLSX.SSF.parse_date_code` day part: Excel 1900-system serial to a
calendar date.  Excel serial 25569 is 1970-01-01; serials 1–60 live in the
1900 January/February region that contains the fictitious 1900-02-29
(Excel's 1900 leap-year bug), reproduced here. -/
def serialDMY (n : Nat) : Int × Nat × Nat :=
  if 60 < n then civilFromDays ((n : Int) - 25569)
  else if n ≤ 31 then (1900, 1, n)
  else (1900, 2, n - 31)

/-- Two-digit zero padding (`String(x).padStart(2, '0')`). -/
def pad2 (n : Nat) : String :=
  if n < 10 then "0" ++ toString n else toString n

/-- Pad a 1–2 digit capture group to two digits. -/
def padG (ds : List Char) : String :=
  if ds.length = 1 then "0" ++ String.mk ds else String.mk ds

/-- Anchored `^(\d{1,2})\/(\d{1,2})\/(\d{4})$` with zero-padded output.
Because the separators are non-digits and the regex is anchored, each
group must be exactly the maximal digit run at its position. -/
def matchDMYfull (s : String) : Option String :=
  let cs := s.toList
  let dDs := cs.takeWhile Char.isDigit
  let r1 := cs.dropWhile Char.isDigit
  match r1 with
  | '/' :: t1 =>
    let mDs := t1.takeWhile Char.isDigit
    let r2 := t1.dropWhile Char.isDigit
    (match r2 with
     | '/' :: t2 =>
       let yDs := t2.takeWhile Char.isDigit
       let r3 := t2.dropWhile Char.isDigit
       if 1 ≤ dDs.length ∧ dDs.length ≤ 2 ∧ 1 ≤ mDs.length ∧ mDs.length ≤ 2
          ∧ yDs.length = 4 ∧ r3 = [] then
         some (padG dDs ++ "/" ++ padG mDs ++ "/" ++ String.mk yDs)
       else none
     | _ => none)
  | _ => none

/-- Anchored `^(\d{4})-(\d{2})-(\d{2})$`, reordered to `DD/MM/YYYY`. -/
def matchYMDfull (s : String) : Option String :=
  let cs := s.toList
  let yDs := cs.takeWhile Char.isDigit
  let r1 := cs.dropWhile Char.isDigit
  match r1 with
  | '-' :: t1 =>
    let mDs := t1.takeWhile Char.isDigit
    let r2 := t1.dropWhile Char.isDigit
    (match r2 with
     | '-' :: t2 =>
       let dDs := t2.takeWhile Char.isDigit
       let r3 := t2.dropWhile Char.isDigit
       if yDs.length = 4 ∧ mDs.length = 2 ∧ dDs.length = 2 ∧ r3 = [] then
         some (String.mk dDs ++ "/" ++ String.mk mDs ++ "/" ++ String.mk yDs)
       else none
     | _ => none)
  | _ => none

/-- `parseExcelDate` from the migration script: a falsy value gives null;
a number is treated as an Excel serial (negative serials are out of range);
a string is trimmed and matched against `DD/MM/YYYY` then `YYYY-MM-DD`;
anything else gives null.  Output is always `DD/MM/YYYY`, zero padded. -/
def parseExcelDate : CellVal → Option String
  | .null => none
  | .num q =>
    if q = 0 then none
    else if q < 0 then none
    else
      let n := (Int.floor q).toNat
      let ymd := serialDMY n
      some (pad2 ymd.2.2 ++ "/" ++ pad2 ymd.2.1 ++ "/" ++ toString ymd.1)
  | .str s =>
    if s = "" then none
    else
      let t := jsTrim s
      match matchDMYfull t with
      | some r => some r
      | none =>
        match matchYMDfull t with
        | some r => some r
        | none => none

/-! ## The live pipeline (src/server.js)

Tables produced by the Azure OCR path are rectangular arrays of strings
(`new Array(maxCol).fill('')` then cell contents), so server-side grids are
`List (List String)`; a missing index reads as `''` (both are falsy). -/

/-- One OCR table: rows of text cells. -/
abbrev Table := List (List String)

/-- JS `parseFloat(s) || 0`: `NaN` (and `-0`/`0`) collapse to 0. -/
def jsParseFloatOr0 (s : String) : ℚ :=
  match parseFloatQ s with
  | none => 0
  | some q => q

/-- Exactly `n` digit characters, returning them and the rest. -/
def takeDigitsCnt : Nat → List Char → Option (List Char × List Char)
  | 0, cs => some ([], cs)
  | _ + 1, [] => none
  | n + 1, c :: t =>
    if c.isDigit then (takeDigitsCnt n t).map (fun p => (c :: p.1, p.2)) else none

/-- After day and month digits: expect `/` then four year digits; the
capture is the raw matched text (the server stores it unpadded). -/
def matchDateYear (dDs mDs : List Char) : List Char → Option String
  | '/' :: t =>
    (match takeDigitsCnt 4 t with
     | some p => some (String.mk (dDs ++ '/' :: (mDs ++ '/' :: p.1)))
     | none => none)
  | _ => none

/-- Month part of `\d{1,2}\/\d{1,2}\/\d{4}`: greedy two digits with
backtracking to one. -/
def matchDateMonth (dDs : List Char) (cs : List Char) : Option String :=
  match (takeDigitsCnt 2 cs).bind (fun p => matchDateYear dDs p.1 p.2) with
  | some s => some s
  | none => (takeDigitsCnt 1 cs).bind (fun p => matchDateYear dDs p.1 p.2)

/-- After the day digits of the date pattern: expect a `/`. -/
def matchDateAfterDay (dDs : List Char) : List Char → Option String
  | '/' :: t => matchDateMonth dDs t
  | _ => none

/-- Try to match `\d{1,2}\/\d{1,2}\/\d{4}` at the head of `cs` (greedy day
with backtracking). -/
def matchDateAt (cs : List Char) : Option String :=
  match (takeDigitsCnt 2 cs).bind (fun p => matchDateAfterDay p.1 p.2) with
  | some s => some s
  | none => (takeDigitsCnt 1 cs).bind (fun p => matchDateAfterDay p.1 p.2)

/-- Leftmost occurrence of the date pattern. -/
def findDateChars : List Char → Option String
  | [] => none
  | c :: t =>
    match matchDateAt (c :: t) with
    | some s => some s
    | none => findDateChars t

/-- The server's `/(?:วันที่\s*)?(\d{1,2}\/\d{1,2}\/\d{4})/` search: the
optional non-capturing `วันที่` leader cannot change which digit pattern is
captured first (no digit pattern can start inside the leader), so the
capture is simply the leftmost `\d{1,2}/\d{1,2}/\d{4}` occurrence. -/
def findDateInText (s : String) : Option String :=
  findDateChars s.toList

/-- Row-major in-table date search (`recordDailyData` lines 199–217). -/
def findDateInRow : List String → Option String
  | [] => none
  | c :: t =>
    match findDateInText c with
    | some d => some d
    | none => findDateInRow t

/-- Scan every row of the table for the date pattern. -/
def findDateInTable : Table → Option String
  | [] => none
  | row :: rest =>
    match findDateInRow row with
    | some d => some d
    | none => findDateInTable rest

/-- Date extraction of `recordDailyData`: extracted text first (skipped
when empty, it is falsy), then the whole table. -/
def extractDate (table : Table) (txt : String) : Option String :=
  match (if txt = "" then none else findDateInText txt) with
  | some d => some d
  | none => findDateInTable table

/-- Validation sum for FC33 หาดใหญ่: over rows of length ≥ 3 whose column-0
text contains both `FC33` and `หาดใหญ่`, add the comma-stripped
`parseFloat` of column 2 (a falsy cell reads as `'0'`); note the sum is
unconditional — zero and negative values are added too. -/
def fc33HadyaiSumOf (t : Table) : ℚ :=
  t.foldl (fun acc row =>
    if row.length < 3 then acc
    else
      let c0 := jsTrim (row.getD 0 "")
      if strIncludes c0 "FC33" && strIncludes c0 "หาดใหญ่" then
        acc + jsParseFloatOr0 (stripCommas (row.getD 2 ""))
      else acc) 0

/-- Validation sum for FC07: same as above but the column-0 test is just
`includes('FC07')` (the source comment says "FC07 ภูเก็ต" but the code only
checks `FC07`). -/
def fc07Sum (t : Table) : ℚ :=
  t.foldl (fun acc row =>
    if row.length < 3 then acc
    else
      let c0 := jsTrim (row.getD 0 "")
      if strIncludes c0 "FC07" then
        acc + jsParseFloatOr0 (stripCommas (row.getD 2 ""))
      else acc) 0

/-- The eleven (short name, full name) CDC pairs, in source order
(`cdcNames` with `cdcNameMapping`). -/
def cdcPairs : List (String × String) :=
  [("บางบัวทอง", "คลังบางบัวทอง"),
   ("นครราชสีมา", "นครราชสีมา"),
   ("นครสวรรค์", "นครสวรรค์"),
   ("ชลบุรี", "ชลบุรี"),
   ("มหาชัย", "คลังมหาชัย"),
   ("สุวรรณภูมิ", "คลังสุวรรณภูมิ"),
   ("หาดใหญ่", "หาดใหญ่"),
   ("ภูเก็ต", "ภูเก็ต"),
   ("เชียงใหม่", "เชียงใหม่"),
   ("สุราษฎร์", "สุราษฎร์"),
   ("ขอนแก่น", "ขอนแก่น")]

/-- Label column searched by `recordDailyData` for a given canonical
(full) CDC name: `คลังบางบัวทอง` is an explicit exception searched in
column 0, the other `คลัง`-prefixed names are searched in column 1, and
everything else in column 0 (lines 349–368). -/
def recordSearchCol (full : String) : Nat :=
  if full = "คลังบางบัวทอง" then 0
  else if strStartsWith full "คลัง" then 1
  else 0

/-- Label column searched by `transformTableData` (lines 842–854): every
`คลัง`-prefixed name in column 1, the rest in column 0 — no exception. -/
def transformSearchCol (full : String) : Nat :=
  if strStartsWith full "คลัง" then 1 else 0

/-- Per-location accumulation with an explicit label column `sc`: over
rows of length ≥ 2 whose trimmed label cell contains the short name, add
the parsed value column when it is truthy and parses to a strictly
positive value. -/
def cdcLocTotalVia (sc : Nat) (t : Table) (col : Nat) (short : String) : ℚ :=
  t.foldl (fun acc row =>
    if row.length < 2 then acc
    else
      let searchCell := jsTrim (row.getD sc "")
      if strIncludes searchCell short then
        match row.getD col "" with
        | "" => acc
        | cell =>
          let v := jsParseFloatOr0 (stripCommas cell)
          if 0 < v then acc + v else acc
      else acc) 0

/-- `recordDailyData`'s per-location total. -/
def cdcLocTotal (t : Table) (col : Nat) (short full : String) : ℚ :=
  cdcLocTotalVia (recordSearchCol full) t col short

/-- `transformTableData`'s per-location total. -/
def transformCdcTotal (t : Table) (col : Nat) (short full : String) : ℚ :=
  cdcLocTotalVia (transformSearchCol full) t col short

/-- The `cdcTotals` mapping built by `recordDailyData` (insertion order of
`cdcNameMapping`). -/
def cdcTotalsList (t : Table) (col : Nat) : List (String × ℚ) :=
  cdcPairs.map (fun p => (p.2, cdcLocTotal t col p.1 p.2))

/-- The CDC summary built by `transformTableData`: `null` for missing
table data, otherwise the totals in `cdcOrder` (which coincides with the
mapping's insertion order). -/
def transformTableData (tables : List Table) (col : Nat) : Option (List (String × ℚ)) :=
  match tables with
  | [] => none
  | t :: _ => some (cdcPairs.map (fun p => (p.2, transformCdcTotal t col p.1 p.2)))

/-- The total-row indicators (`totalIndicators`). -/
def totalIndicators : List String :=
  ["ยอดรวม", "รวม", "total", "grand total", "sum"]

/-- Scan for the first total row: a row of length ≥ 2 whose trimmed C0 or
C1 contains an indicator (case-insensitively) and whose value cell is
truthy yields its parsed value; an indicator row with a falsy value cell
does **not** stop the scan. -/
def scanTotalRow (t : Table) (col : Nat) : Option ℚ :=
  match t with
  | [] => none
  | row :: rest =>
    if row.length < 2 then scanTotalRow rest col
    else
      let c0 := jsTrim (row.getD 0 "")
      let c1 := jsTrim (row.getD 1 "")
      let found := totalIndicators.any (fun ind =>
        strIncludes (jsToLower c0) (jsToLower ind) || strIncludes (jsToLower c1) (jsToLower ind))
      if found then
        match row.getD col "" with
        | "" => scanTotalRow rest col
        | cell => some (jsParseFloatOr0 (stripCommas cell))
      else scanTotalRow rest col

/-- Fallback total: the sum of every strictly positive parsed value in the
column, over **all** rows with a truthy value cell (lines 324–339). -/
def blindColSum (t : Table) (col : Nat) : ℚ :=
  t.foldl (fun acc row =>
    match row.getD col "" with
    | "" => acc
    | cell =>
      let v := jsParseFloatOr0 (jsTrim (stripCommas cell))
      if 0 < v then acc + v else acc) 0

/-- The grand total stored by `recordDailyData`: the scanned total row if
it parsed to a nonzero value, else the blind column sum (the scan leaves
`totalSum === 0` both when no usable row exists and when the found value
parses to 0). -/
def recordTotalSum (t : Table) (col : Nat) : ℚ :=
  match scanTotalRow t col with
  | some v => if v = 0 then blindColSum t col else v
  | none => blindColSum t col

/-- `khonKaenLaos` (orange only): from the last row whose truthy column-0
contains `ขอนแก่น` **and** has a truthy column 2, the parsed column-2
value; rows failing the column-2 test do not stop the upward search. -/
def khonKaenLaosGo : List (List String) → ℚ
  | [] => 0
  | row :: rest =>
    if row.getD 0 "" = "" then khonKaenLaosGo rest
    else
      let c0 := jsTrim (row.getD 0 "")
      if strIncludes c0 "ขอนแก่น" then
        match row.getD 2 "" with
        | "" => khonKaenLaosGo rest
        | cell => jsParseFloatOr0 (stripCommas cell)
      else khonKaenLaosGo rest

/-- Bottom-up `ขอนแก่น` Laos extraction (lines 386–405). -/
def khonKaenLaosValue (t : Table) : ℚ :=
  khonKaenLaosGo t.reverse

/-- The two live product categories of the webhook pipeline. -/
inductive Cat where
  | orange
  | yuzu
deriving DecidableEq, Repr

/-- Value column per category (`cdcConfig`). -/
def catColumn : Cat → Nat
  | .orange => 2
  | .yuzu => 3

/-- One persisted daily record (`dailyRecord` object); `none` models the
`undefined` auxiliary fields of non-orange records. -/
structure DailyRecord where
  date : String
  timestamp : String
  fc33HadyaiSum : ℚ
  totalSum : ℚ
  cdcTotals : List (String × ℚ)
  khonKaenLaos : Option ℚ
  khonKaenCambodia : Option ℚ
deriving DecidableEq, Repr

/-- The JSON store `daily_records.json` ({ orange: [...], yuzu: [...] }). -/
structure Records where
  orange : List DailyRecord
  yuzu : List DailyRecord
deriving DecidableEq, Repr

/-- The list held for one category. -/
def catList (recs : Records) : Cat → List DailyRecord
  | .orange => recs.orange
  | .yuzu => recs.yuzu

/-- `isDateRecorded`: some stored record has exactly this date string. -/
def isDateRecorded (recs : Records) (d : String) (c : Cat) : Bool :=
  (catList recs c).any (fun r => r.date == d)

/-- Append a freshly built record to its category list. -/
def pushCat (recs : Records) (c : Cat) (r : DailyRecord) : Records :=
  match c with
  | .orange => { recs with orange := recs.orange ++ [r] }
  | .yuzu => { recs with yuzu := recs.yuzu ++ [r] }

/-- Assemble the `dailyRecord` object for one category (lines 407–416). -/
def buildRecord (table : Table) (d ts : String) (c : Cat) : DailyRecord :=
  { date := d
    timestamp := ts
    fc33HadyaiSum := fc33HadyaiSumOf table
    totalSum := recordTotalSum table (catColumn c)
    cdcTotals := cdcTotalsList table (catColumn c)
    khonKaenLaos := match c with
      | .orange => some (khonKaenLaosValue table)
      | .yuzu => none
    khonKaenCambodia := match c with
      | .orange => some 0
      | .yuzu => none }

/-- The `for (const category of ['orange', 'yuzu'])` loop: skip a category
whose date is already recorded, otherwise build and push its record. -/
def recordLoop (table : Table) (d ts : String) :
    List Cat → Records × List (Cat × DailyRecord) → Records × List (Cat × DailyRecord)
  | [], st => st
  | c :: cs, st =>
    if isDateRecorded st.1 d c then recordLoop table d ts cs st
    else
      let r := buildRecord table d ts c
      recordLoop table d ts cs (pushCat st.1 c r, st.2 ++ [(c, r)])

/-- Outcome of one `recordDailyData` call. -/
inductive RecordResult where
  | failure (reason : String)
  | success (date : String) (results : List (Cat × DailyRecord))
deriving DecidableEq, Repr

/-- Did the call record (or at least reach the recording stage)? -/
def RecordResult.isSuccess : RecordResult → Bool
  | .failure _ => false
  | .success _ _ => true

/-- Failure reason of the signal-location validation gate. -/
def gateFailMsg : String :=
  "Both FC33 หาดใหญ่ and FC07 ภูเก็ต C2 sums are 0 (validation failed)"

/-- Failure reason when no date was parsed. -/
def noDateMsg : String :=
  "No date found in table or extracted text"

/-- `recordDailyData(tableData, extractedText)` with the JSON store passed
explicitly (`loadDailyRecords`/`saveDailyRecords` become the `Records`
argument and component of the result) and the capture timestamp as a
parameter.  Order of checks follows the source: empty table data, then the
FC33/FC07 gate, then date extraction, then the per-category loop. -/
def recordDailyData (tables : List Table) (txt : String) (recs : Records) (ts : String) :
    RecordResult × Records :=
  match tables with
  | [] => (.failure "No table data found", recs)
  | table :: _ =>
    if fc33HadyaiSumOf table = 0 ∧ fc07Sum table = 0 then
      (.failure gateFailMsg, recs)
    else
      match extractDate table txt with
      | none => (.failure noDateMsg, recs)
      | some d =>
        let st := recordLoop table d ts [Cat.orange, Cat.yuzu] (recs, [])
        (.success d st.2, st.1)

/-- Number of stored records carrying a given date. -/
def countDate (l : List DailyRecord) (d : String) : Nat :=
  l.countP (fun r => r.date == d)

/-! ## `preprocessTableData` (fill-down of the two label columns) -/

/-- JS array assignment `row[c] = v` (holes created below `c` read as
`''`, like `undefined` cells do everywhere in the pipeline). -/
def setCell : List String → Nat → String → List String
  | [], 0, v => [v]
  | [], c + 1, v => "" :: setCell [] c v
  | _ :: t, 0, v => v :: t
  | h :: t, c + 1, v => h :: setCell t c v

/-- One fill-down pass over column `c` with the current carry: a truthy
cell updates the carry when its trimmed text is non-blank (and is left in
place either way — a whitespace-only cell is truthy, so it is neither
replaced nor carry-updating); a falsy cell is overwritten with the carry
when one exists. -/
def fillColAux (c : Nat) (carry : Option String) : List (List String) → List (List String)
  | [] => []
  | row :: rest =>
    let cell := row.getD c ""
    if cell ≠ "" then
      let v := jsTrim cell
      let carry2 := if v ≠ "" then some v else carry
      row :: fillColAux c carry2 rest
    else
      match carry with
      | some v => setCell row c v :: fillColAux c (some v) rest
      | none => row :: fillColAux c none rest

/-- Fill down one column of a table from an empty carry. -/
def fillCol (c : Nat) (t : Table) : Table :=
  fillColAux c none t

/-- `preprocessTableData` on one table: fill down column 0 fully, then
column 1 (empty table data is returned unchanged). -/
def preprocessTable (t : Table) : Table :=
  match t with
  | [] => []
  | _ => fillCol 1 (fillCol 0 t)

/-- `preprocessTableData` over the table list. -/
def preprocessTableData (ts : List Table) : List Table :=
  ts.map preprocessTable

/-- Cell access used in the fill-down statements. -/
def getCell (t : Table) (i c : Nat) : String :=
  (t.getD i []).getD c ""

/-- Carry update of the fill-down scan, as a fold step. -/
def carryUpd (c : Nat) (acc : Option String) (row : List String) : Option String :=
  if jsTrim (row.getD c "") ≠ "" then some (jsTrim (row.getD c "")) else acc

/-- The carry available after scanning `rows`: the trimmed text of the
last cell in column `c` whose trimmed text is non-blank. -/
def colCarry (c : Nat) (rows : List (List String)) : Option String :=
  rows.foldl (carryUpd c) none

/-! ## The Excel migration script's header scanner (`parseAndMigrateSheet`) -/

/-- `CDC_VARIATIONS`, in source (insertion) order. -/
def cdcVariations : List (String × List String) :=
  [("บางบัวทอง", ["บางบัวทอง", "คลังบางบัวทอง", "BBT"]),
   ("นครราชสีมา", ["นครราชสีมา", "โคราช", "NMA"]),
   ("นครสวรรค์", ["นครสวรรค์", "NSW"]),
   ("ชลบุรี", ["ชลบุรี", "CBR"]),
   ("มหาชัย", ["มหาชัย", "คลังมหาชัย", "MHC"]),
   ("สุวรรณภูมิ", ["สุวรรณภูมิ", "คลังสุวรรณภูมิ", "SVB"]),
   ("หาดใหญ่", ["หาดใหญ่", "HDY"]),
   ("ภูเก็ต", ["ภูเก็ต", "PKT"]),
   ("เชียงใหม่", ["เชียงใหม่", "CNX"]),
   ("สุราษฎร์", ["สุราษฎร์", "สุราษฎร์ธานี", "SRT"]),
   ("ขอนแก่น", ["ขอนแก่น", "KKN"])]

/-- `CDC_NAME_TO_FULL` lookup (the same eleven pairs as the live
pipeline's mapping). -/
def cdcShortToFull (short : String) : String :=
  ((cdcPairs.find? (fun p => p.1 == short)).map Prod.snd).getD short

/-- `findCdcName`: a falsy cell resolves to nothing; otherwise the first
variation list (in fixed priority order) containing a substring match
determines the canonical full name. -/
def findCdcName (cellValue : String) : Option String :=
  if cellValue = "" then none
  else
    cdcVariations.findSome? (fun p =>
      if p.2.any (fun v => strIncludes cellValue v) then some (cdcShortToFull p.1)
      else none)

/-- Date-label test of the scanner (`วันที่` or case-insensitive `date`). -/
def isDateHeaderCell (s : String) : Bool :=
  strIncludes s "วันที่" || strIncludes (jsToLower s) "date"

/-- Total-label test of the scanner, excluding `รวม CDC`-style cells. -/
def isTotalHeaderCell (s : String) : Bool :=
  (strIncludes s "รวม" || strIncludes (jsToLower s) "total" || strIncludes s "ยอดรวม")
    && !(strIncludes s "CDC")

/-- The `tempCdcColumns` of one row: each column whose trimmed stringified
cell resolves to a CDC name, with that name; `cdcCount` is its length
(one count per matching **cell**, duplicates included). -/
def rowCdcCols (row : List CellVal) : List (Nat × String) :=
  row.enum.filterMap (fun p =>
    (findCdcName (jsTrim (cellToString p.2))).map (fun n => (p.1, n)))

/-- Date/total column updates contributed by one row; the two indices are
mutable across the whole scan, so they are threaded as state (last
matching cell wins). -/
def rowScanDT (dt : Int × Int) (row : List CellVal) : Int × Int :=
  row.enum.foldl (fun st p =>
    let s := jsTrim (cellToString p.2)
    ((if isDateHeaderCell s then (p.1 : Int) else st.1),
     (if isTotalHeaderCell s then (p.1 : Int) else st.2))) dt

/-- The header scan loop: bounded to the first 50 rows, it accumulates the
date/total indices row by row and stops at the first row with at least 5
CDC-resolving cells, returning
(header row index, column→name map, date column, total column). -/
def scanHeaderAux :
    List (List CellVal) → Nat → Int × Int → Option (Nat × List (Nat × String) × Int × Int)
  | [], _, _ => none
  | row :: rest, k, dt =>
    if k < 50 then
      let dt2 := rowScanDT dt row
      let cols := rowCdcCols row
      if 5 ≤ cols.length then some (k, cols, dt2.1, dt2.2)
      else scanHeaderAux rest (k + 1) dt2
    else none

/-- Header scan from row 0 with both indices initialised to −1. -/
def scanHeader (data : List (List CellVal)) :
    Option (Nat × List (Nat × String) × Int × Int) :=
  scanHeaderAux data 0 (-1, -1)

/-- One historical record produced by the migration (dry-run shape). -/
structure MigRecord where
  date : String
  timestamp : String
  fc33HadyaiSum : Int
  totalSum : Int
  cdcTotals : List (String × Int)
  khonKaenLaos : Option Int
  khonKaenCambodia : Option Int
deriving DecidableEq, Repr

/-- Date of a data row: first parse among columns `0..max(dateCol, 2)`,
then (redundantly, as in the source) the designated date column. -/
def migDate (dc : Int) (row : List CellVal) : Option String :=
  let bound := (max dc 2).toNat
  match (List.range (bound + 1)).findSome? (fun j => parseExcelDate (row.getD j (.str ""))) with
  | some d => some d
  | none => if 0 ≤ dc then parseExcelDate (row.getD dc.toNat (.str "")) else none

/-- Value assigned to one full CDC name from the header's column map
(`cdcTotals[cdcName] = value` in column order — the last column mapped to
the name wins). -/
def migCdcVal (cols : List (Nat × String)) (row : List CellVal) (full : String) : Int :=
  cols.foldl (fun acc p =>
    if p.2 = full then parseNumericValue (row.getD p.1 (.str "")) else acc) 0

/-- Parse one data row into a migration record: skipped when empty, when
no date parses, or when the total and every CDC value are zero. -/
def migRecordOfRow (cols : List (Nat × String)) (dc tc : Int) (category ts : String)
    (row : List CellVal) : Option MigRecord :=
  if row.isEmpty then none
  else
    match migDate dc row with
    | none => none
    | some d =>
      let totals := cdcPairs.map (fun p => (p.2, migCdcVal cols row p.2))
      let tSum : Int :=
        if 0 ≤ tc ∧ cellTruthy (row.getD tc.toNat (.str "")) then
          parseNumericValue (row.getD tc.toNat (.str ""))
        else totals.foldl (fun a p => a + p.2) 0
      if tSum = 0 ∧ totals.all (fun p => p.2 = 0) then none
      else
        some { date := d
               timestamp := ts
               fc33HadyaiSum := ((totals.find? (fun p => p.1 == "หาดใหญ่")).map Prod.snd).getD 0
               totalSum := tSum
               cdcTotals := totals
               khonKaenLaos := if category = "orange" then some 0 else none
               khonKaenCambodia := if category = "orange" then some 0 else none }

/-- `parseAndMigrateSheet`'s record extraction (dry-run record list): no
header row within the bound means no records at all; otherwise every row
below the header is parsed. -/
def parseSheetRecords (data : List (List CellVal)) (category ts : String) : List MigRecord :=
  match scanHeader data with
  | none => []
  | some (hdr, cols, dc, tc) =>
    (data.drop (hdr + 1)).filterMap (migRecordOfRow cols dc tc category ts)

/-- The fixed per-location label-column rule, enumerated:
(full name, column used by `recordDailyData`, column used by
`transformTableData`). -/
def labelColSpec : List (String × Nat × Nat) :=
  [("คลังบางบัวทอง", 0, 1),
   ("นครราชสีมา", 0, 0),
   ("นครสวรรค์", 0, 0),
   ("ชลบุรี", 0, 0),
   ("คลังมหาชัย", 1, 1),
   ("คลังสุวรรณภูมิ", 1, 1),
   ("หาดใหญ่", 0, 0),
   ("ภูเก็ต", 0, 0),
   ("เชียงใหม่", 0, 0),
   ("สุราษฎร์", 0, 0),
   ("ขอนแก่น", 0, 0)]

/-! ## Concrete tables used by the witnesses and counterexamples -/

/-- Table with a CDC-attributed value (10) and an unattributed value (7)
in the orange value column, and no total-indicator row. -/
def c2tbl : Table := [["หาดใหญ่", "", "10"], ["junk", "", "7"]]

/-- Table with no parsable date and zero signal sums. -/
def c4tbl : Table := [["junk"]]

/-- Table passing the signal gate but containing no parsable date. -/
def c4wtbl : Table := [["FC33 หาดใหญ่", "", "7"]]

/-- Table whose FC33 หาดใหญ่ column-2 sum is negative. -/
def c5negTbl : Table := [["FC33 หาดใหญ่", "", "-5"]]

/-- Table whose only signal contribution is an `FC07` row that does not
mention ภูเก็ต. -/
def c5fc07Tbl : Table := [["FC07 เชียงใหม่", "", "5"]]

/-- Table passing the signal gate but with no parsable date anywhere. -/
def c5noDateTbl : Table := [["FC33 หาดใหญ่", "", "7"]]

/-- Table with all signal sums zero but a non-zero total row. -/
def c5wTbl : Table := [["รวม", "", "100"]]

/-- A sheet row with five CDC-resolving cells but only four distinct
canonical locations (หาดใหญ่ appears twice), and no date or total label. -/
def c3row : List CellVal :=
  [.str "หาดใหญ่", .str "หาดใหญ่", .str "ภูเก็ต", .str "ชลบุรี", .str "เชียงใหม่"]

/-- A sheet whose date label sits in row 0 while the (first qualifying)
header row is row 1. -/
def c3rows : List (List CellVal) := [[.str "วันที่"], c3row]

/-- Minimal gate-passing, dated table for the idempotence witness. -/
def w1tbl : Table := [["FC33 หาดใหญ่", "", "10"]]

/-- The orange record produced from `w1tbl` at timestamp `t1`. -/
def w1orange : DailyRecord :=
  { date := "18/10/2025"
    timestamp := "t1"
    fc33HadyaiSum := 10
    totalSum := 10
    cdcTotals := [("คลังบางบัวทอง", 0), ("นครราชสีมา", 0), ("นครสวรรค์", 0), ("ชลบุรี", 0),
                  ("คลังมหาชัย", 0), ("คลังสุวรรณภูมิ", 0), ("หาดใหญ่", 10), ("ภูเก็ต", 0),
                  ("เชียงใหม่", 0), ("สุราษฎร์", 0), ("ขอนแก่น", 0)]
    khonKaenLaos := some 0
    khonKaenCambodia := some 0 }

/-- The yuzu record produced from `w1tbl` at timestamp `t1` (its value
column, index 3, is absent from the table). -/
def w1yuzu : DailyRecord :=
  { date := "18/10/2025"
    timestamp := "t1"
    fc33HadyaiSum := 10
    totalSum := 0
    cdcTotals := [("คลังบางบัวทอง", 0), ("นครราชสีมา", 0), ("นครสวรรค์", 0), ("ชลบุรี", 0),
                  ("คลังมหาชัย", 0), ("คลังสุวรรณภูมิ", 0), ("หาดใหญ่", 0), ("ภูเก็ต", 0),
                  ("เชียงใหม่", 0), ("สุราษฎร์", 0), ("ขอนแก่น", 0)]
    khonKaenLaos := none
    khonKaenCambodia := none }

/-- Table whose orange (column 2) and yuzu (column 3) values differ, for
the shared-`fc33HadyaiSum` witness. -/
def c10tbl : Table := [["FC33 หาดใหญ่", "", "10", "99"]]

/-- The orange record produced from `c10tbl` at timestamp `t0`. -/
def c10orange : DailyRecord :=
  { date := "18/10/2025"
    timestamp := "t0"
    fc33HadyaiSum := 10
    totalSum := 10
    cdcTotals := [("คลังบางบัวทอง", 0), ("นครราชสีมา", 0), ("นครสวรรค์", 0), ("ชลบุรี", 0),
                  ("คลังมหาชัย", 0), ("คลังสุวรรณภูมิ", 0), ("หาดใหญ่", 10), ("ภูเก็ต", 0),
                  ("เชียงใหม่", 0), ("สุราษฎร์", 0), ("ขอนแก่น", 0)]
    khonKaenLaos := some 0
    khonKaenCambodia := some 0 }

/-- The yuzu record produced from `c10tbl` at timestamp `t0`: its own
value column gives 99 everywhere, yet `fc33HadyaiSum` stays 10. -/
def c10yuzu : DailyRecord :=
  { date := "18/10/2025"
    timestamp := "t0"
    fc33HadyaiSum := 10
    totalSum := 99
    cdcTotals := [("คลังบางบัวทอง", 0), ("นครราชสีมา", 0), ("นครสวรรค์", 0), ("ชลบุรี", 0),
                  ("คลังมหาชัย", 0), ("คลังสุวรรณภูมิ", 0), ("หาดใหญ่", 99), ("ภูเก็ต", 0),
                  ("เชียงใหม่", 0), ("สุราษฎร์", 0), ("ขอนแก่น", 0)]
    khonKaenLaos := none
    khonKaenCambodia := none }


/-! ## Theorems -/

/-- Claim C8: date parsing normalizes every accepted input to one
canonical zero-padded `DD/MM/YYYY` form: `"2025-10-18"` and
`"18/10/2025"` yield the same canonical value, the spreadsheet serial
45948 converts via standard epoch arithmetic to that same date,
single-digit fields are zero padded, and an unrecognized shape yields
`none` (the function is total, so it never throws). -/
theorem claim8_parse_date :
    parseExcelDate (.str "2025-10-18") = some "18/10/2025" ∧
    parseExcelDate (.str "18/10/2025") = some "18/10/2025" ∧
    parseExcelDate (.num 45948) = some "18/10/2025" ∧
    parseExcelDate (.str "5/3/2025") = some "05/03/2025" ∧
    parseExcelDate (.str "not a date") = none := by
  refine ⟨by decide, by decide, by decide, by decide, by decide⟩

/-- Claim C9: quantity parsing is total with integer output: numbers are
`Math.round`ed (half-up), `""`/`null` give 0, text has commas stripped
then is float-parsed and rounded (`"1,234"` → 1234, `"12.6"` → 13),
unparsable text gives 0, and negative values pass through unclamped. -/
theorem claim9_parse_quantity :
    (∀ q : ℚ, parseNumericValue (.num q) = jsRound q) ∧
    parseNumericValue (.str "1,234") = 1234 ∧
    parseNumericValue (.str "") = 0 ∧
    parseNumericValue .null = 0 ∧
    parseNumericValue (.str "12.6") = 13 ∧
    parseNumericValue (.str "not a number") = 0 ∧
    parseNumericValue (.str "-5") = -5 ∧
    parseNumericValue (.num (-(7 : ℚ) / 2)) = -3 := by
  refine ⟨fun q => rfl, by decide, by decide, by decide, by decide, by decide, by decide, by decide⟩

/-- Claim C2 counterexample: on a grid with no total-indicator row, the
stored grand total (17) is the blind positive sum of the whole value
column, not the sum of the per-location totals actually accumulated
(10 — the `junk` row is attributed to no location). -/
theorem claim2_fallback_total_cex :
    scanTotalRow c2tbl 2 = none ∧
    recordTotalSum c2tbl 2 = 17 ∧
    (cdcTotalsList c2tbl 2).foldl (fun a p => a + p.2) 0 = 10 ∧
    recordTotalSum c2tbl 2 ≠ (cdcTotalsList c2tbl 2).foldl (fun a p => a + p.2) 0 := by
  refine ⟨by decide, by decide, by decide, by decide⟩

/-- Claim C2 (amended): when no total-indicator row yields a usable
(non-zero-parsing) grand total, the stored grand total is the blind sum of
every strictly positive parsed value in the category's value column over
all rows — not the sum of the per-location totals actually accumulated. -/
theorem claim2_fallback_total : ∀ (t : Table) (col : Nat),
    scanTotalRow t col = none ∨ scanTotalRow t col = some 0 →
    recordTotalSum t col = blindColSum t col := by
  intro t col h
  rcases h with h | h <;> simp [recordTotalSum, h]

/-- Witness for `claim2_fallback_total` at the concrete no-total-row grid. -/
theorem claim2_fallback_total_wit :
    recordTotalSum c2tbl 2 = blindColSum c2tbl 2 :=
  claim2_fallback_total c2tbl 2 (Or.inl (by decide))

/-- Claim C7 counterexample: `คลังบางบัวทอง` carries the depot prefix
`คลัง`, yet the record pipeline matches it in column 0 (attributing the
`FC01 บางบัวทอง` row's value 5) while the display transformation matches
it in column 1 (attributing nothing) — so the claimed prefix⇒column-1
rule is false and the two sites do not apply the same rule. -/
theorem claim7_label_column_cex :
    strStartsWith "คลังบางบัวทอง" "คลัง" = true ∧
    cdcLocTotal [["FC01 บางบัวทอง", "", "5"]] 2 "บางบัวทอง" "คลังบางบัวทอง" = 5 ∧
    transformCdcTotal [["FC01 บางบัวทอง", "", "5"]] 2 "บางบัวทอง" "คลังบางบัวทอง" = 0 := by
  refine ⟨by decide, by decide, by decide⟩

/-- Claim C7 (amended): the label column is a fixed per-location rule, but
in the record pipeline `คลังบางบัวทอง` is an exception matched in column 0
while the other `คลัง`-prefixed locations use column 1 and the rest use
column 0; the display transformation uses column 1 for every
`คลัง`-prefixed location, so the two sites agree exactly on the locations
other than `คลังบางบัวทอง`. -/
theorem claim7_label_column :
    (labelColSpec.all (fun e =>
        (recordSearchCol e.1 == e.2.1) && (transformSearchCol e.1 == e.2.2))) = true ∧
    (labelColSpec.all (fun e =>
        (recordSearchCol e.1 == transformSearchCol e.1) == (e.1 != "คลังบางบัวทอง"))) = true ∧
    recordSearchCol "คลังบางบัวทอง" ≠ transformSearchCol "คลังบางบัวทอง" := by
  refine ⟨by decide, by decide, by decide⟩

/-- Claim C4 counterexample: a table from which no date can be parsed and
whose signal sums are zero is rejected with the gate reason, not the
no-date reason — the date check is not evaluated first. -/
theorem claim4_reject_order_cex :
    extractDate c4tbl "" = none ∧
    recordDailyData [c4tbl] "" ⟨[], []⟩ "t" = (.failure gateFailMsg, ⟨[], []⟩) ∧
    gateFailMsg ≠ noDateMsg := by
  refine ⟨by decide, by decide, by decide⟩

/-- Claim C4 (amended): rejection reasons are evaluated with the signal
gate first — a table failing the FC33/FC07 gate is rejected with the gate
reason even when no date is parsable, and the no-date reason is reported
exactly when the gate passes but no usable date can be parsed from the
grid or the accompanying text. -/
theorem claim4_reject_order :
    ∀ (table : Table) (rest : List Table) (txt : String) (recs : Records) (ts : String),
    (fc33HadyaiSumOf table = 0 ∧ fc07Sum table = 0 →
      recordDailyData (table :: rest) txt recs ts = (.failure gateFailMsg, recs)) ∧
    (¬(fc33HadyaiSumOf table = 0 ∧ fc07Sum table = 0) → extractDate table txt = none →
      recordDailyData (table :: rest) txt recs ts = (.failure noDateMsg, recs)) := by
  intro table rest txt recs ts
  constructor
  · intro h
    simp only [recordDailyData]
    rw [if_pos h]
  · intro h hd
    simp only [recordDailyData]
    rw [if_neg h, hd]

/-- Witness for `claim4_reject_order` at a gate-passing table with no
parsable date. -/
theorem claim4_reject_order_wit :
    recordDailyData [c4wtbl] "" ⟨[], []⟩ "t" = (.failure noDateMsg, ⟨[], []⟩) :=
  (claim4_reject_order c4wtbl [] "" ⟨[], []⟩ "t").2 (by decide) (by decide)

/-- Claim C5 counterexample: the gate requires a *nonzero* — not strictly
positive — signal sum (a grid whose only FC33 หาดใหญ่ value is −5 is
accepted), it counts any row containing `FC07` (here `FC07 เชียงใหม่`,
which never names ภูเก็ต), and a passing gate alone does not imply
persistence (a gate-passing grid with no date persists nothing). -/
theorem claim5_signal_gate_cex :
    fc33HadyaiSumOf c5negTbl = -5 ∧ fc07Sum c5negTbl = 0 ∧
    (recordDailyData [c5negTbl] "18/10/2025" ⟨[], []⟩ "t").1.isSuccess = true ∧
    strIncludes "FC07 เชียงใหม่" "ภูเก็ต" = false ∧
    (recordDailyData [c5fc07Tbl] "18/10/2025" ⟨[], []⟩ "t").1.isSuccess = true ∧
    recordDailyData [c5noDateTbl] "" ⟨[], []⟩ "t" = (.failure noDateMsg, ⟨[], []⟩) := by
  refine ⟨by decide, by decide, by decide, by decide, by decide, by decide⟩

/-- Claim C5 (amended): records can be persisted only when the signal gate
passes, where the gate requires a nonzero FC33 หาดใหญ่ column-2 sum or a
nonzero column-2 sum over rows containing `FC07`; when both signal sums
are zero the table is rejected and the store is left unchanged — even when
the total column is non-zero (see the witness). -/
theorem claim5_signal_gate :
    ∀ (table : Table) (rest : List Table) (txt : String) (recs : Records) (ts : String),
    ((recordDailyData (table :: rest) txt recs ts).1.isSuccess = true →
      ¬(fc33HadyaiSumOf table = 0 ∧ fc07Sum table = 0)) ∧
    (fc33HadyaiSumOf table = 0 ∧ fc07Sum table = 0 →
      (recordDailyData (table :: rest) txt recs ts).2 = recs) := by
  intro table rest txt recs ts
  constructor
  · intro hs
    by_contra h
    simp only [recordDailyData] at hs
    rw [if_pos h] at hs
    simp [RecordResult.isSuccess] at hs
  · intro h
    simp only [recordDailyData]
    rw [if_pos h]

/-- Witness for `claim5_signal_gate` at a zero-signal table whose total
row is nonetheless non-zero: the store stays unchanged. -/
theorem claim5_signal_gate_wit :
    (recordDailyData [c5wTbl] "18/10/2025" ⟨[], []⟩ "t").2 = (⟨[], []⟩ : Records) ∧
    recordTotalSum c5wTbl 2 = 100 :=
  ⟨(claim5_signal_gate c5wTbl [] "18/10/2025" ⟨[], []⟩ "t").2 (by decide), by decide⟩

/-- Writing a cell then reading the same column yields the written value. -/
theorem setCell_getD : ∀ (row : List String) (c : Nat) (v : String),
    ((setCell row c v)[c]?).getD "" = v := by
  intro row
  induction row with
  | nil =>
    intro c v
    induction c with
    | zero => simp [setCell]
    | succ n ih => simpa [setCell] using ih
  | cons h t ih =>
    intro c v
    cases c with
    | zero => simp [setCell]
    | succ n => simpa [setCell] using ih n v

/-- Trimming the empty string gives the empty string. -/
theorem jsTrim_empty : jsTrim "" = "" := rfl

/-- Cell-level characterisation of one fill-down pass: a raw-non-empty
cell is left unchanged, a raw-empty cell receives the carry accumulated
over the rows above it (or stays empty when there is none). -/
theorem fillColAux_getCell (c : Nat) :
    ∀ (rows : List (List String)) (carry : Option String) (i : Nat),
    ((fillColAux c carry rows).getD i []).getD c "" =
      ((rows.get? i).map (fun row =>
        if row.getD c "" ≠ "" then row.getD c ""
        else (((rows.take i).foldl (carryUpd c) carry).getD ""))).getD "" := by
  intro rows
  induction rows with
  | nil => intro carry i; simp [fillColAux]
  | cons row rest ih =>
    intro carry i
    by_cases hcell : (row[c]?).getD "" = ""
    · cases carry with
      | none =>
        cases i with
        | zero => simp [fillColAux, hcell]
        | succ j =>
          simpa [fillColAux, hcell, carryUpd, jsTrim_empty] using ih none j
      | some v =>
        cases i with
        | zero => simp [fillColAux, hcell, setCell_getD]
        | succ j =>
          simpa [fillColAux, hcell, carryUpd, jsTrim_empty] using ih (some v) j
    · cases i with
      | zero => simp [fillColAux, hcell]
      | succ j =>
        simpa [fillColAux, hcell, carryUpd] using ih (carryUpd c carry row) j

/-- Claim C6 counterexample: a whitespace-only cell trims to the empty
string, yet fill-down leaves it unchanged (it is truthy), so "empty = 
trimmed text is empty" is not the rule the code implements; moreover the
value carried down is the *trimmed* text of the preceding cell. -/
theorem claim6_fill_down_cex :
    jsTrim " " = "" ∧
    fillCol 0 [["A"], [" "]] = [["A"], [" "]] ∧
    fillCol 0 [["A"], [" "]] ≠ [["A"], ["A"]] ∧
    fillCol 0 [[" B "], [""]] = [[" B "], ["B"]] := by
  refine ⟨by decide, by decide, by decide, by decide⟩

/-- Claim C6 (amended): for every grid and column, fill-down replaces
every cell whose *raw* text is empty (or missing) by the trimmed text of
the nearest preceding cell whose trimmed text is non-blank; cells before
the first such value stay empty, and whitespace-only cells (truthy but
blank after trimming) are left unchanged and do not update the carry.  The
examples `[A,"","",B,""] → [A,A,A,B,B]` and `["","",A] → ["","",A]` hold
as claimed. -/
theorem claim6_fill_down :
    (∀ (t : Table) (c i : Nat),
      getCell (fillCol c t) i c =
        ((t.get? i).map (fun row =>
          if row.getD c "" ≠ "" then row.getD c ""
          else ((colCarry c (t.take i)).getD ""))).getD "") ∧
    fillCol 0 [["A"], [""], [""], ["B"], [""]] = [["A"], ["A"], ["A"], ["B"], ["B"]] ∧
    fillCol 0 [[""], [""], ["A"]] = [[""], [""], ["A"]] := by
  refine ⟨fun t c i => ?_, by decide, by decide⟩
  simpa [getCell, fillCol, colCarry] using fillColAux_getCell c t none i

/-- Claim C10: every record produced by one successful `recordDailyData`
call — yuzu as well as orange — stores the same `fc33HadyaiSum`, the
column-2 sum over rows naming both FC33 and หาดใหญ่ computed once before
the per-category loop, never recomputed from the category's own value
column. -/
theorem claim10_fc33_shared :
    ∀ (table : Table) (rest : List Table) (txt : String) (recs : Records) (ts d : String)
      (res : List (Cat × DailyRecord)) (recs1 : Records),
    recordDailyData (table :: rest) txt recs ts = (.success d res, recs1) →
    ∀ pr ∈ res, pr.2.fc33HadyaiSum = fc33HadyaiSumOf table := by
  intro table rest txt recs ts d res recs1 h pr hpr
  simp only [recordDailyData] at h
  by_cases hg : fc33HadyaiSumOf table = 0 ∧ fc07Sum table = 0
  · rw [if_pos hg] at h
    simp at h
  · rw [if_neg hg] at h
    cases hex : extractDate table txt with
    | none => rw [hex] at h; simp at h
    | some d2 =>
      rw [hex] at h
      have hres : res = (recordLoop table d2 ts [Cat.orange, Cat.yuzu] (recs, [])).2 := by
        have h1 := congrArg (fun p => p.1) h
        simp only [Prod.mk.injEq, RecordResult.success.injEq] at h1
        exact h1.2.symm
      subst hres
      simp only [recordLoop] at hpr
      split_ifs at hpr <;>
        simp only [buildRecord, List.nil_append, List.mem_append, List.mem_singleton,
          List.not_mem_nil, or_false, false_or] at hpr <;>
      first
        | exact hpr.elim
        | (rcases hpr with rfl | rfl <;> rfl)

/-- A date with zero stored occurrences is not `isDateRecorded`. -/
theorem countDate_zero_any (l : List DailyRecord) (d : String) (h : countDate l d = 0) :
    l.any (fun r => r.date == d) = false := by
  rw [List.any_eq_false]
  intro x hx
  have hz := List.countP_eq_zero.mp h x hx
  simpa using hz

/-- Evaluation of the category loop when neither category has the date
recorded: both records are pushed, in order. -/
theorem recordLoop_both_new (table : Table) (d ts : String) (recs : Records)
    (ho : isDateRecorded recs d Cat.orange = false)
    (hy : isDateRecorded recs d Cat.yuzu = false) :
    recordLoop table d ts [Cat.orange, Cat.yuzu] (recs, []) =
      ({ orange := recs.orange ++ [buildRecord table d ts Cat.orange],
         yuzu := recs.yuzu ++ [buildRecord table d ts Cat.yuzu] },
       [(Cat.orange, buildRecord table d ts Cat.orange),
        (Cat.yuzu, buildRecord table d ts Cat.yuzu)]) := by
  have hy2 : isDateRecorded
      ({ recs with orange := recs.orange ++ [buildRecord table d ts Cat.orange] } : Records) d
      Cat.yuzu = false := by
    simpa [isDateRecorded, catList] using hy
  simp [recordLoop, ho, hy2, pushCat]

/-- Evaluation of the category loop when both categories already have the
date: nothing is pushed and nothing is reported. -/
theorem recordLoop_both_old (table : Table) (d ts : String) (recs : Records)
    (ho : isDateRecorded recs d Cat.orange = true)
    (hy : isDateRecorded recs d Cat.yuzu = true) :
    recordLoop table d ts [Cat.orange, Cat.yuzu] (recs, []) = (recs, []) := by
  simp [recordLoop, ho, hy]

/-- Claim C1: running `recordDailyData` twice with the same inputs, from a
store not yet containing the extracted date, leaves exactly one persisted
record per (date, category) pair: the second run sees the recorded keys,
persists nothing new, returns a success (a skip, not an error) with an
empty result list, and leaves the store exactly unchanged. -/
theorem claim1_record_idempotent :
    ∀ (tables : List Table) (txt : String) (recs0 : Records) (ts1 ts2 d : String)
      (res : List (Cat × DailyRecord)) (recs1 : Records),
    recordDailyData tables txt recs0 ts1 = (.success d res, recs1) →
    countDate recs0.orange d = 0 →
    countDate recs0.yuzu d = 0 →
    countDate recs1.orange d = 1 ∧ countDate recs1.yuzu d = 1 ∧
    recordDailyData tables txt recs1 ts2 = (.success d [], recs1) := by
  intro tables txt recs0 ts1 ts2 d res recs1 h hco hcy
  cases tables with
  | nil => simp [recordDailyData] at h
  | cons table rest =>
    simp only [recordDailyData] at h ⊢
    by_cases hg : fc33HadyaiSumOf table = 0 ∧ fc07Sum table = 0
    · rw [if_pos hg] at h
      simp at h
    · rw [if_neg hg] at h ⊢
      cases hex : extractDate table txt with
      | none =>
        rw [hex] at h
        simp at h
      | some d2 =>
        simp only [hex] at h ⊢
        simp only [Prod.mk.injEq, RecordResult.success.injEq] at h
        obtain ⟨⟨hd2, hres⟩, hrecs⟩ := h
        have hd2s : d = d2 := hd2.symm
        subst hd2s
        have ho : isDateRecorded recs0 d Cat.orange = false :=
          countDate_zero_any _ _ hco
        have hy : isDateRecorded recs0 d Cat.yuzu = false :=
          countDate_zero_any _ _ hcy
        rw [recordLoop_both_new table d ts1 recs0 ho hy] at hrecs
        subst hrecs
        refine ⟨?_, ?_, ?_⟩
        · simp only [countDate] at hco ⊢
          rw [List.countP_append, hco]
          simp [List.countP_cons, buildRecord]
        · simp only [countDate] at hcy ⊢
          rw [List.countP_append, hcy]
          simp [List.countP_cons, buildRecord]
        · have ho2 : isDateRecorded
              ({ orange := recs0.orange ++ [buildRecord table d ts1 Cat.orange],
                 yuzu := recs0.yuzu ++ [buildRecord table d ts1 Cat.yuzu] } : Records) d
              Cat.orange = true := by
            simp [isDateRecorded, catList, buildRecord]
          have hy2 : isDateRecorded
              ({ orange := recs0.orange ++ [buildRecord table d ts1 Cat.orange],
                 yuzu := recs0.yuzu ++ [buildRecord table d ts1 Cat.yuzu] } : Records) d
              Cat.yuzu = true := by
            simp [isDateRecorded, catList, buildRecord]
          rw [recordLoop_both_old table d ts2 _ ho2 hy2]

/-- Witness for `claim1_record_idempotent`: from an empty store, one run
on `w1tbl` stores one record per category; the second run changes
nothing and reports a skip-style success with no new results. -/
theorem claim1_record_idempotent_wit :
    countDate ({ orange := [w1orange], yuzu := [w1yuzu] } : Records).orange "18/10/2025" = 1 ∧
    countDate ({ orange := [w1orange], yuzu := [w1yuzu] } : Records).yuzu "18/10/2025" = 1 ∧
    recordDailyData [w1tbl] "วันที่ 18/10/2025" ⟨[w1orange], [w1yuzu]⟩ "t2" =
      (.success "18/10/2025" [], ⟨[w1orange], [w1yuzu]⟩) :=
  claim1_record_idempotent [w1tbl] "วันที่ 18/10/2025" ⟨[], []⟩ "t1" "t2" "18/10/2025"
    [(Cat.orange, w1orange), (Cat.yuzu, w1yuzu)] ⟨[w1orange], [w1yuzu]⟩
    (by decide) (by decide) (by decide)

/-- Witness for `claim10_fc33_shared`: on a table whose orange and yuzu
value columns differ (10 vs 99), both produced records store the same
`fc33HadyaiSum` 10. -/
theorem claim10_fc33_shared_wit :
    c10orange.fc33HadyaiSum = fc33HadyaiSumOf c10tbl ∧
    c10yuzu.fc33HadyaiSum = fc33HadyaiSumOf c10tbl :=
  ⟨claim10_fc33_shared c10tbl [] "วันที่ 18/10/2025" ⟨[], []⟩ "t0" "18/10/2025"
      [(Cat.orange, c10orange), (Cat.yuzu, c10yuzu)] ⟨[c10orange], [c10yuzu]⟩ (by decide)
      (Cat.orange, c10orange) (by simp),
   claim10_fc33_shared c10tbl [] "วันที่ 18/10/2025" ⟨[], []⟩ "t0" "18/10/2025"
      [(Cat.orange, c10orange), (Cat.yuzu, c10yuzu)] ⟨[c10orange], [c10yuzu]⟩ (by decide)
      (Cat.yuzu, c10yuzu) (by simp)⟩

/-- Claim C3 counterexample: the scanner accepts as header the first row
with at least 5 CDC-*resolving cells* — here a row with only 4 distinct
canonical locations (หาดใหญ่ twice) — and the accepted layout's date
column (0) was observed in row 0, not in the header row itself (the
header row contributes no date/total update at all). -/
theorem claim3_header_scan_cex :
    scanHeader c3rows =
      some (1, [(0, "หาดใหญ่"), (1, "หาดใหญ่"), (2, "ภูเก็ต"), (3, "ชลบุรี"), (4, "เชียงใหม่")],
        0, -1) ∧
    ((rowCdcCols c3row).map Prod.snd).dedup.length = 4 ∧
    rowScanDT (-1, -1) c3row = (-1, -1) := by
  refine ⟨by decide, by decide, by decide⟩

/-- Generalised invariant of the header-scan loop: a successful scan
returns the first row (within the 50-row bound, counting from offset `k`)
with at least five CDC-resolving cells, that row's column map, and the
date/total indices folded over *all* rows up to and including the header
row. -/
theorem scanHeaderAux_some (rows : List (List CellVal)) :
    ∀ (k : Nat) (dt : Int × Int) (i : Nat) (cols : List (Nat × String)) (dc tc : Int),
    scanHeaderAux rows k dt = some (i, cols, dc, tc) →
    k ≤ i ∧ i < 50 ∧ i - k < rows.length ∧
    5 ≤ (rowCdcCols (rows.getD (i - k) [])).length ∧
    (∀ j, j < i - k → (rowCdcCols (rows.getD j [])).length < 5) ∧
    cols = rowCdcCols (rows.getD (i - k) []) ∧
    (dc, tc) = (rows.take (i - k + 1)).foldl rowScanDT dt := by
  induction rows with
  | nil =>
    intro k dt i cols dc tc h
    simp [scanHeaderAux] at h
  | cons row rest ih =>
    intro k dt i cols dc tc h
    simp only [scanHeaderAux] at h
    by_cases hk : k < 50
    · rw [if_pos hk] at h
      by_cases h5 : 5 ≤ (rowCdcCols row).length
      · rw [if_pos h5] at h
        simp only [Option.some.injEq, Prod.mk.injEq] at h
        obtain ⟨hik, hcols, hdc, htc⟩ := h
        subst hik
        subst hdc
        subst htc
        refine ⟨Nat.le_refl k, hk, ?_, ?_, ?_, ?_, ?_⟩
        · simp
        · simpa [Nat.sub_self] using h5
        · intro j hj
          omega
        · simp [Nat.sub_self, hcols]
        · simp [Nat.sub_self]
      · rw [if_neg h5] at h
        obtain ⟨hki, h50, hlen, hge, hlt, hcols, hdt⟩ :=
          ih (k + 1) (rowScanDT dt row) i cols dc tc h
        have hik : i - k = (i - (k + 1)) + 1 := by omega
        refine ⟨by omega, h50, ?_, ?_, ?_, ?_, ?_⟩
        · rw [hik]
          simp only [List.length_cons]
          omega
        · rw [hik]
          simpa using hge
        · intro j hj
          cases j with
          | zero =>
            simpa using Nat.not_le.mp h5
          | succ m =>
            have hm : m < i - (k + 1) := by omega
            simpa using hlt m hm
        · rw [hik]
          simpa using hcols
        · rw [hik]
          simpa [List.take_succ_cons, List.foldl_cons] using hdt
    · rw [if_neg hk] at h
      simp at h

/-- Claim C3 (amended): the header scan accepts as header row the first
row among the first 50 rows containing at least 5 cells that resolve to a
canonical location (not necessarily 5 *distinct* locations); the
Layout's column→location map comes from that row, while the date- and
total-column indices are those accumulated over **all** scanned rows up to
and including the header row (last observation wins); if no row within the
bound qualifies, the sheet produces no records at all. -/
theorem claim3_header_scan :
    ∀ (data : List (List CellVal)),
    (∀ (i : Nat) (cols : List (Nat × String)) (dc tc : Int),
      scanHeader data = some (i, cols, dc, tc) →
      i < 50 ∧ i < data.length ∧
      5 ≤ (rowCdcCols (data.getD i [])).length ∧
      (∀ j, j < i → (rowCdcCols (data.getD j [])).length < 5) ∧
      cols = rowCdcCols (data.getD i []) ∧
      (dc, tc) = (data.take (i + 1)).foldl rowScanDT (-1, -1)) ∧
    (scanHeader data = none → ∀ category ts, parseSheetRecords data category ts = []) := by
  intro data
  constructor
  · intro i cols dc tc h
    have haux := scanHeaderAux_some data 0 (-1, -1) i cols dc tc h
    simpa using haux.2
  · intro h category ts
    simp [parseSheetRecords, h]

/-- Witness for `claim3_header_scan` at the two-row sheet `c3rows`: the
header is row 1, which has 5 resolving cells, while the returned date
column 0 is the fold over both rows. -/
theorem claim3_header_scan_wit :
    1 < c3rows.length ∧
    5 ≤ (rowCdcCols (c3rows.getD 1 [])).length ∧
    (((0 : Int), (-1 : Int))) = (c3rows.take 2).foldl rowScanDT (-1, -1) := by
  have h := (claim3_header_scan c3rows).1 1
    [(0, "หาดใหญ่"), (1, "หาดใหญ่"), (2, "ภูเก็ต"), (3, "ชลบุรี"), (4, "เชียงใหม่")]
    0 (-1) (by decide)
  exact ⟨h.2.1, h.2.2.1, h.2.2.2.2.2⟩
